import Mathlib

/-!
Shallow embedding of `src/app/main.py` (STU_OA_AI_Detector), a FastAPI app
orchestrating a single background job.  The global mutable `state : TaskState`
is modelled by explicit state passing: every request handler becomes a pure
function `... → TaskState → TaskState × Except ApiError α`, where the
`TaskState` component is the state after the handler ran (a raised
`HTTPException` leaves the state as it was) and the `Except` component is the
HTTP response.  `datetime.utcnow()` is modelled by an explicit `now : Nat`
parameter.  The Playwright page, the environment variables and the network are
modelled by an explicit environment record `JobEnv`; a Python exception is
modelled by its string description.
-/

/-- `asyncio.Task` handle: the model only observes `task.done()`. -/
structure TaskHandle where
  done : Bool
deriving DecidableEq, Repr

/-- The `TaskState` dataclass (main.py lines 27-40). -/
structure TaskState where
  status : String
  msg : String
  result_markdown : String
  last_update : Nat
  otp_event : Bool
  otp_value : Option String
  task : Option TaskHandle
deriving DecidableEq, Repr

/-- `TaskState.update`: sets status, msg and the timestamp (main.py lines 37-40). -/
def TaskState.update (s : TaskState) (status msg : String) (now : Nat) : TaskState :=
  { s with status := status, msg := msg, last_update := now }

/-- The module-level `state = TaskState()` with the dataclass defaults
(main.py lines 28-35 and 44). -/
def initialState : TaskState :=
  { status := "idle", msg := "等待任务启动", result_markdown := "",
    last_update := 0, otp_event := false, otp_value := none, task := none }

/-- `StartRequest` pydantic model: both fields have `min_length=1` (lines 18-20). -/
structure StartRequest where
  username : String
  password : String
deriving DecidableEq, Repr

/-- `OtpRequest` pydantic model: `otp` has `min_length=4, max_length=12` (lines 23-24). -/
structure OtpRequest where
  otp : String
deriving DecidableEq, Repr

/-- Errors surfaced to a caller: pydantic request validation failure
(FastAPI rejects the request before the handler body runs), or an
`HTTPException(status_code, detail)` raised inside a handler. -/
inductive ApiError where
  | validationError
  | httpException (status_code : Nat) (detail : String)
deriving DecidableEq, Repr

/-- The `{"status": ..., "msg": ...}` response body shared by the handlers. -/
structure StatusMsg where
  status : String
  msg : String
deriving DecidableEq, Repr

/-- `state.task and not state.task.done()`: the single-flight "job active" test
(main.py line 55). -/
def taskActive (s : TaskState) : Bool :=
  match s.task with
  | some t => !t.done
  | none => false

/-- `POST /api/start` handler body (main.py lines 53-64).  `create_task`
spawns the background flow; the handler returns without awaiting it, so the
fresh handle is not yet done. -/
def start_task (payload : StartRequest) (now : Nat) (s : TaskState) :
    TaskState × Except ApiError StatusMsg :=
  if taskActive s = true then
    (s, Except.error (ApiError.httpException 409 "已有任务在运行"))
  else
    let s1 : TaskState := { s with otp_event := false, otp_value := none, result_markdown := "" }
    let s2 := TaskState.update s1 "processing" "正在初始化任务..." now
    let s3 : TaskState := { s2 with task := some (TaskHandle.mk false) }
    (s3, Except.ok (StatusMsg.mk s3.status s3.msg))

/-- `GET /api/status` handler body (main.py lines 67-69). -/
def get_status (s : TaskState) : TaskState × Except ApiError StatusMsg :=
  (s, Except.ok (StatusMsg.mk s.status s.msg))

/-- `POST /api/otp` handler body (main.py lines 72-80). -/
def submit_otp (payload : OtpRequest) (now : Nat) (s : TaskState) :
    TaskState × Except ApiError StatusMsg :=
  if s.status ≠ "waiting_otp" then
    (s, Except.error (ApiError.httpException 400 "当前不需要口令"))
  else
    let s1 : TaskState := { s with otp_value := some payload.otp, otp_event := true }
    let s2 := TaskState.update s1 "processing" "已收到口令，继续处理..." now
    (s2, Except.ok (StatusMsg.mk s2.status s2.msg))

/-- `GET /api/result` handler body (main.py lines 83-87): the response is the
stored markdown text. -/
def get_result (s : TaskState) : TaskState × Except ApiError String :=
  if s.status ≠ "done" then
    (s, Except.error (ApiError.httpException 404 "结果尚未生成"))
  else
    (s, Except.ok s.result_markdown)

/-- Pydantic validation of `OtpRequest` (`min_length=4, max_length=12`),
performed by FastAPI before the handler body runs. -/
def OtpRequest.validate (otp : String) : Option OtpRequest :=
  if 4 ≤ otp.length ∧ otp.length ≤ 12 then some (OtpRequest.mk otp) else none

/-- Pydantic validation of `StartRequest` (`min_length=1` on both fields). -/
def StartRequest.validate (username password : String) : Option StartRequest :=
  if 1 ≤ username.length ∧ 1 ≤ password.length then
    some (StartRequest.mk username password)
  else none

/-- The full `POST /api/start` endpoint: pydantic validation, then the handler. -/
def api_start (username password : String) (now : Nat) (s : TaskState) :
    TaskState × Except ApiError StatusMsg :=
  match StartRequest.validate username password with
  | none => (s, Except.error ApiError.validationError)
  | some payload => start_task payload now s

/-- The full `POST /api/otp` endpoint: pydantic validation, then the handler. -/
def api_submit_otp (otp : String) (now : Nat) (s : TaskState) :
    TaskState × Except ApiError StatusMsg :=
  match OtpRequest.validate otp with
  | none => (s, Except.error ApiError.validationError)
  | some payload => submit_otp payload now s

/-- `state.otp_value or ""`: what the resumed waiter passes to
`page.fill(otp_input_selector, ...)` (main.py line 144).  Python's `or`
falls back to `""` exactly when the value is `None` or the empty string,
which coincides with `Option.getD ""` on this model. -/
def otpRead (s : TaskState) : String :=
  s.otp_value.getD ""

/-- One row of the OA notice list as the Playwright page exposes it:
each `*_el` field is the result of `row.query_selector(...)` carrying its
(raw, unstripped) `inner_text`; `href` is `link_el.get_attribute("href")`;
`parsedDate` is the outcome of parsing the stripped date text
(`datetime.fromisoformat` then `strptime("%Y-%m-%d")`), as a day ordinal, or
the `ValueError` description when both parses fail. -/
structure RowData where
  title_el : Option String
  department_el : Option String
  date_el : Option String
  link_el : Option Unit
  href : Option String
  parsedDate : Except String Int

/-- Environment of one background-flow run: the process environment variables,
the outcome of every awaited Playwright operation, the concurrent OTP
submission (if one arrives before the 60 s deadline), and the wall clock used
for `datetime.utcnow()` during the run. -/
structure JobEnv where
  getenv : String → Option String
  gotoLogin : Except String Unit
  fillUser : Except String Unit
  fillPass : Except String Unit
  clickSubmit : Except String Unit
  otpDialogAppears : Bool
  otpSubmit : Option (String × Nat)
  fillOtp : String → Except String Unit
  clickOtpSubmit : Except String Unit
  gotoOa : Except String Unit
  oaReady : Bool
  listReady : Except String Unit
  rows : List RowData
  todayOrdinal : Int
  fetchDetail : String → Except String String
  time : Nat

/-- `get_env` (main.py lines 107-111): returns the variable's value or raises
`RuntimeError(f"缺少环境变量: {name}")`. -/
def get_env (getenv : String → Option String) (name : String) : Except String String :=
  match getenv name with
  | some v => Except.ok v
  | none => Except.error ("缺少环境变量: " ++ name)

/-- The operations of `login_and_enter_oa` preceding the OTP dialog wait
(main.py lines 117-130): nine `get_env` reads, then `goto`, two `fill`s and a
`click`; the first exception aborts the sequence. -/
def loginPrelude (env : JobEnv) : Except String Unit := do
  let _ ← get_env env.getenv "WEBVPN_LOGIN_URL"
  let _ ← get_env env.getenv "WEBVPN_USERNAME_SELECTOR"
  let _ ← get_env env.getenv "WEBVPN_PASSWORD_SELECTOR"
  let _ ← get_env env.getenv "WEBVPN_SUBMIT_SELECTOR"
  let _ ← get_env env.getenv "WEBVPN_OTP_DIALOG_SELECTOR"
  let _ ← get_env env.getenv "WEBVPN_OTP_INPUT_SELECTOR"
  let _ ← get_env env.getenv "WEBVPN_OTP_SUBMIT_SELECTOR"
  let _ ← get_env env.getenv "OA_ENTRY_URL"
  let _ ← get_env env.getenv "OA_READY_SELECTOR"
  env.gotoLogin
  env.fillUser
  env.fillPass
  env.clickSubmit

/-- `login_and_enter_oa` (main.py lines 114-152).  The 60 s
`asyncio.wait_for(state.otp_event.wait(), timeout=60)` is the job's only
suspension point: `env.otpSubmit = some (v, t)` means a `POST /api/otp`
carrying `v` ran at time `t` while the flow was suspended (its guard passes
because the flow has just set status `waiting_otp`); `none` means no
submission arrived and the wait raised `asyncio.TimeoutError`, whose string
description is empty, and is re-raised after `update("error", "动态口令超时")`. -/
def login_and_enter_oa (env : JobEnv) (payload : StartRequest) (s : TaskState) :
    TaskState × Except String Unit :=
  let s := TaskState.update s "processing" "正在登录 WebVPN..." env.time
  match loginPrelude env with
  | Except.error e => (s, Except.error e)
  | Except.ok _ =>
    if env.otpDialogAppears = false then
      (s, Except.error "未检测到口令输入窗口，请检查选择器")
    else
      let s := TaskState.update s "waiting_otp" "等待动态口令输入..." env.time
      match env.otpSubmit with
      | none =>
        let s := TaskState.update s "error" "动态口令超时" env.time
        (s, Except.error "")
      | some sub =>
        let s := (submit_otp (OtpRequest.mk sub.1) sub.2 s).1
        match (do env.fillOtp (otpRead s); env.clickOtpSubmit : Except String Unit) with
        | Except.error e => (s, Except.error e)
        | Except.ok _ =>
          let s := TaskState.update s "processing" "正在进入 OA 系统..." env.time
          match env.gotoOa with
          | Except.error e => (s, Except.error e)
          | Except.ok _ =>
            if env.oaReady = false then
              (s, Except.error "OA 页面未加载成功，请检查入口地址或选择器")
            else
              (s, Except.ok ())

/-- A scraped notice record `{title, department, date, content}`. -/
structure NoticeItem where
  title : String
  department : String
  date : String
  content : String
deriving DecidableEq, Repr

/-- Metadata collected by the first loop of `scrape_notices`. -/
structure MetaEntry where
  title : String
  department : String
  date : Int
  link : String
deriving DecidableEq, Repr

/-- Python `str.join`: `pyJoin sep [a, b, c] = a ++ sep ++ b ++ sep ++ c`. -/
def pyJoin (sep : String) : List String → String
  | [] => ""
  | [a] => a
  | a :: b :: rest => a ++ sep ++ pyJoin sep (b :: rest)

/-- Python `str.strip()` with no arguments: remove leading and trailing
whitespace. -/
def pyStrip (s : String) : String :=
  String.mk (((s.data.dropWhile Char.isWhitespace).reverse.dropWhile Char.isWhitespace).reverse)

/-- Python `str.split()` with no arguments: the maximal whitespace-free runs
of the string, whitespace discarded (`acc` holds the current run reversed). -/
def wsTokens : List Char → List Char → List String
  | [], [] => []
  | [], acc => [String.mk acc.reverse]
  | c :: cs, acc =>
    if c.isWhitespace then
      match acc with
      | [] => wsTokens cs []
      | _ => String.mk acc.reverse :: wsTokens cs []
    else wsTokens cs (c :: acc)

/-- `" ".join(content.split())`: collapse whitespace runs, dropping empty
fragments, and rejoin with single spaces (main.py line 211). -/
def normalizeWs (s : String) : String :=
  pyJoin " " (wsTokens s.data [])

/-- The first `for row in rows` loop of `scrape_notices` (main.py lines
169-199): raise if any of the four selectors found nothing, `continue` on a
missing/empty href, propagate a date-parse `ValueError`, `break` once a row is
older than the cutoff, otherwise collect the entry. -/
def collectMetadata (cutoff : Int) : List RowData → Except String (List MetaEntry)
  | [] => Except.ok []
  | row :: rest =>
    match row.title_el, row.department_el, row.date_el, row.link_el with
    | some titleRaw, some depRaw, some dateRaw, some _ =>
      let title := pyStrip titleRaw
      let department := pyStrip depRaw
      match row.href with
      | none => collectMetadata cutoff rest
      | some link =>
        if link = "" then collectMetadata cutoff rest
        else
          match row.parsedDate with
          | Except.error e => Except.error e
          | Except.ok d =>
            if d < cutoff then Except.ok []
            else
              match collectMetadata cutoff rest with
              | Except.error e => Except.error e
              | Except.ok tail => Except.ok (MetaEntry.mk title department d link :: tail)
    | _, _, _, _ => Except.error "通知列表选择器不完整，请检查配置"

/-- The second `for entry in metadata` loop of `scrape_notices` (main.py lines
202-214): fetch each detail page (`goto` + `wait_for_selector` + `inner_text`,
any of which may raise), append the record, and report progress. -/
def fetchDetails (env : JobEnv) :
    List MetaEntry → List NoticeItem → TaskState → TaskState × Except String (List NoticeItem)
  | [], acc, s => (s, Except.ok acc)
  | entry :: rest, acc, s =>
    match env.fetchDetail entry.link with
    | Except.error e => (s, Except.error e)
    | Except.ok content =>
      let acc := acc ++ [NoticeItem.mk entry.title entry.department (toString entry.date) (normalizeWs content)]
      let s := TaskState.update s "processing" ("已读取 " ++ toString acc.length ++ " 条通知详情...") env.time
      fetchDetails env rest acc s

/-- Control outcome of a Python statement block: it executed a `return` or it
raised. -/
inductive PyExit (α : Type) where
  | ret (a : α)
  | raise (e : String)
deriving DecidableEq, Repr

/-- The six `get_env` reads and the `wait_for_selector(list_row_selector)` at
the top of `scrape_notices` (main.py lines 157-164). -/
def scrapePrelude (env : JobEnv) : Except String Unit := do
  let _ ← get_env env.getenv "OA_LIST_ROW_SELECTOR"
  let _ ← get_env env.getenv "OA_TITLE_SELECTOR"
  let _ ← get_env env.getenv "OA_DEPARTMENT_SELECTOR"
  let _ ← get_env env.getenv "OA_DATE_SELECTOR"
  let _ ← get_env env.getenv "OA_LINK_SELECTOR"
  let _ ← get_env env.getenv "OA_DETAIL_CONTENT_SELECTOR"
  env.listReady

/-- The statements of `scrape_notices` up to and including
`if not items: raise ...; return items` (main.py lines 156-218), with the
control outcome made explicit: `some (ret items)` when line 218's `return`
ran, `some (raise e)` when an exception propagated, and `none` when control
would fall through to the statements after the `return`. -/
def scrape_notices_stmts (env : JobEnv) (s : TaskState) :
    TaskState × Option (PyExit (List NoticeItem)) :=
  let s := TaskState.update s "processing" "正在抓取通知列表..." env.time
  match scrapePrelude env with
  | Except.error e => (s, some (PyExit.raise e))
  | Except.ok _ =>
    let cutoff := env.todayOrdinal - 30
    match collectMetadata cutoff env.rows with
    | Except.error e => (s, some (PyExit.raise e))
    | Except.ok metadata =>
      match fetchDetails env metadata [] s with
      | (s2, Except.error e) => (s2, some (PyExit.raise e))
      | (s2, Except.ok items) =>
        if items.isEmpty then (s2, some (PyExit.raise "未抓取到任何通知，请检查选择器配置"))
        else (s2, some (PyExit.ret items))

/-- The hard-coded `sample_items` literal after the `return` (main.py lines
220-234); `now` is `datetime.utcnow().date()` as a day ordinal. -/
def sample_items (now : Int) : List NoticeItem :=
  [NoticeItem.mk "关于期末考试安排的通知" "教务处" (toString (now - 7)) "请各学院于本月完成期末考试安排上报。",
   NoticeItem.mk "校园讲座：AI 与教育" "学术处" (toString (now - 3)) "地点图书馆报告厅，欢迎师生参加。"]

/-- `scrape_notices` (main.py lines 155-237): the main statement block,
followed — only if control fell through without returning or raising — by the
trailing `sample_items` block (lines 220-237). -/
def scrape_notices (env : JobEnv) (s : TaskState) :
    TaskState × Except String (List NoticeItem) :=
  match scrape_notices_stmts env s with
  | (s2, some (PyExit.ret items)) => (s2, Except.ok items)
  | (s2, some (PyExit.raise e)) => (s2, Except.error e)
  | (s2, none) =>
    let s3 := TaskState.update s2 "processing" "正在读取详情页..." env.time
    (s3, Except.ok (sample_items env.todayOrdinal))

/-- The f-string of the summary loop body (main.py lines 243-246). -/
def formatNoticeLine (item : NoticeItem) : String :=
  "- **" ++ item.title ++ "**（" ++ item.department ++ " / " ++ item.date ++ "）：" ++ item.content

/-- `simulate_ai_summary` (main.py lines 240-249): header lines, one bullet
per record, a trailing section, joined with newlines. -/
def simulate_ai_summary (items : List NoticeItem) : String :=
  pyJoin "\n" (["# 本月 OA 重点摘要", "", "## 重要教务"]
    ++ items.map formatNoticeLine
    ++ ["\n## 其他\n- 暂无"])

/-- `run_job` (main.py lines 90-104): drives the stages inside a `try`, and
the outer `except Exception as exc` converts any raised exception into
`state.update("error", f"任务失败: {exc}")`.  The function is total: no
exception escapes it. -/
def run_job (env : JobEnv) (payload : StartRequest) (s : TaskState) : TaskState :=
  match login_and_enter_oa env payload s with
  | (s1, Except.error e) => TaskState.update s1 "error" ("任务失败: " ++ e) env.time
  | (s1, Except.ok _) =>
    match scrape_notices env s1 with
    | (s2, Except.error e) => TaskState.update s2 "error" ("任务失败: " ++ e) env.time
    | (s2, Except.ok notices) =>
      let s3 := TaskState.update s2 "processing" "正在调用 AI 摘要..." env.time
      let s4 : TaskState := { s3 with result_markdown := simulate_ai_summary notices }
      TaskState.update s4 "done" "简报已生成" env.time

/-- The first stage exception raised during a `run_job` run, if any: the
login stage's, else the scrape stage's (run against the state the login stage
left behind).  `none` means both stages succeeded. -/
def jobException (env : JobEnv) (payload : StartRequest) (s : TaskState) : Option String :=
  match login_and_enter_oa env payload s with
  | (_, Except.error e) => some e
  | (s1, Except.ok _) =>
    match scrape_notices env s1 with
    | (_, Except.error e) => some e
    | (_, Except.ok _) => none

/-- A single mutation of the shared `state`, by a request handler (the whole
handler runs between two awaits of the single-threaded event loop, so it is one
atomic step) or by the background flow (whose mutations of `state` are the
`update` calls, the `result_markdown` assignment, and the event loop marking
the finished `asyncio.Task` done). -/
inductive Step : TaskState → TaskState → Prop where
  | apiStart (u p : String) (now : Nat) (s : TaskState) : Step s (api_start u p now s).1
  | apiOtp (otp : String) (now : Nat) (s : TaskState) : Step s (api_submit_otp otp now s).1
  | apiStatus (s : TaskState) : Step s (get_status s).1
  | apiResult (s : TaskState) : Step s (get_result s).1
  | flowUpdate (status msg : String) (now : Nat) (s : TaskState) :
      Step s (TaskState.update s status msg now)
  | flowSetResult (text : String) (s : TaskState) :
      Step s { s with result_markdown := text }
  | flowTaskDone (s : TaskState) :
      Step s { s with task := s.task.map (fun _ => TaskHandle.mk true) }

/-- States reachable from the process-start `state = TaskState()` by any
interleaving of request handlers and background-flow mutations. -/
inductive Reachable : TaskState → Prop where
  | init : Reachable initialState
  | step {s s' : TaskState} : Reachable s → Step s s' → Reachable s'

lemma step_preserves_otp_inv {s s' : TaskState} (hstep : Step s s')
    (h : s.otp_event = true → ∃ v, s.otp_value = some v) :
    s'.otp_event = true → ∃ v, s'.otp_value = some v := by
  cases hstep with
  | apiStart u p now s =>
    cases hv : StartRequest.validate u p with
    | none => simp only [api_start, hv]; exact h
    | some payload =>
      simp only [api_start, hv, start_task]
      by_cases ha : taskActive s = true
      · rw [if_pos ha]; exact h
      · rw [if_neg ha]
        intro hx
        simp [TaskState.update] at hx
  | apiOtp otp now s =>
    cases hv : OtpRequest.validate otp with
    | none => simp only [api_submit_otp, hv]; exact h
    | some payload =>
      simp only [api_submit_otp, hv, submit_otp]
      by_cases hw : s.status ≠ "waiting_otp"
      · rw [if_pos hw]; exact h
      · rw [if_neg hw]
        intro _
        exact ⟨payload.otp, rfl⟩
  | apiStatus s => exact h
  | apiResult s =>
    simp only [get_result]
    by_cases hd : s.status ≠ "done"
    · rw [if_pos hd]; exact h
    · rw [if_neg hd]; exact h
  | flowUpdate status msg now s => exact h
  | flowSetResult text s => exact h
  | flowTaskDone s => exact h

lemma reachable_otp_inv {s : TaskState} (hr : Reachable s) :
    s.otp_event = true → ∃ v, s.otp_value = some v := by
  induction hr with
  | init => intro h; simp [initialState] at h
  | step _ hstep ih => exact step_preserves_otp_inv hstep ih

/-- C1: Single-flight invariant — the model has a single job-handle slot, so
at most one job is active at any time, and a `Start` issued while the handle
is present and not done raises 409 Conflict and returns with every field of
the state unchanged. -/
theorem start_single_flight_conflict (p : StartRequest) (now : Nat) (s : TaskState)
    (h : taskActive s = true) :
    start_task p now s = (s, Except.error (ApiError.httpException 409 "已有任务在运行")) := by
  simp [start_task, h]

def activeStateW : TaskState := { initialState with task := some (TaskHandle.mk false) }

theorem start_single_flight_conflict_witness :
    taskActive activeStateW = true ∧
    start_task (StartRequest.mk "a" "b") 5 activeStateW =
      (activeStateW, Except.error (ApiError.httpException 409 "已有任务在运行")) :=
  ⟨rfl, start_single_flight_conflict (StartRequest.mk "a" "b") 5 activeStateW rfl⟩

/-- C2: `submit_otp` succeeds iff the current status is `waiting_otp`: any
other status yields 400 with the state untouched; on success it stores the
value, fires the gate, moves to `processing` with the acknowledgement message,
and returns the snapshot. -/
theorem submit_otp_state_guard (p : OtpRequest) (now : Nat) (s : TaskState) :
    (s.status ≠ "waiting_otp" →
      submit_otp p now s = (s, Except.error (ApiError.httpException 400 "当前不需要口令"))) ∧
    (s.status = "waiting_otp" →
      submit_otp p now s =
        ({ s with otp_value := some p.otp, otp_event := true,
                  status := "processing", msg := "已收到口令，继续处理...", last_update := now },
         Except.ok (StatusMsg.mk "processing" "已收到口令，继续处理..."))) := by
  constructor
  · intro h; simp [submit_otp, h]
  · intro h; simp [submit_otp, h, TaskState.update]

def waitingStateW : TaskState := { initialState with status := "waiting_otp" }

theorem submit_otp_state_guard_witness :
    submit_otp (OtpRequest.mk "1234") 7 initialState =
      (initialState, Except.error (ApiError.httpException 400 "当前不需要口令")) ∧
    submit_otp (OtpRequest.mk "123456") 7 waitingStateW =
      ({ waitingStateW with otp_value := some "123456", otp_event := true,
                            status := "processing", msg := "已收到口令，继续处理...",
                            last_update := 7 },
       Except.ok (StatusMsg.mk "processing" "已收到口令，继续处理...")) :=
  ⟨(submit_otp_state_guard (OtpRequest.mk "1234") 7 initialState).1 (by decide),
   (submit_otp_state_guard (OtpRequest.mk "123456") 7 waitingStateW).2 rfl⟩

/-- C4: `get_result` succeeds iff `status == done`, returning the stored
markdown; in every other status it raises 404 and leaves the state unchanged. -/
theorem get_result_iff_done (s : TaskState) :
    (s.status = "done" → get_result s = (s, Except.ok s.result_markdown)) ∧
    (s.status ≠ "done" →
      get_result s = (s, Except.error (ApiError.httpException 404 "结果尚未生成"))) := by
  constructor
  · intro h; simp [get_result, h]
  · intro h; simp [get_result, h]

def doneStateW : TaskState :=
  { initialState with status := "done", result_markdown := "# 简报" }

theorem get_result_iff_done_witness :
    get_result doneStateW = (doneStateW, Except.ok "# 简报") ∧
    get_result initialState =
      (initialState, Except.error (ApiError.httpException 404 "结果尚未生成")) :=
  ⟨(get_result_iff_done doneStateW).1 rfl,
   (get_result_iff_done initialState).2 (by decide)⟩

/-- C5: a `Start` with no active job — whatever the prior terminal status,
result text, gate or passcode — installs a fresh unset event, clears the
passcode, empties the result, moves to `processing`, spawns a fresh (not yet
done) task handle, and immediately returns the snapshot. -/
theorem start_task_fresh_reset (p : StartRequest) (now : Nat) (s : TaskState)
    (h : taskActive s = false) :
    start_task p now s =
      ({ s with otp_event := false, otp_value := none, result_markdown := "",
                status := "processing", msg := "正在初始化任务...", last_update := now,
                task := some (TaskHandle.mk false) },
       Except.ok (StatusMsg.mk "processing" "正在初始化任务...")) := by
  simp [start_task, h, TaskState.update]

def errorStateW : TaskState :=
  { status := "error", msg := "任务失败: x", result_markdown := "旧结果",
    last_update := 9, otp_event := true, otp_value := some "9999",
    task := some (TaskHandle.mk true) }

theorem start_task_fresh_reset_witness :
    start_task (StartRequest.mk "alice" "pw") 10 errorStateW =
      ({ errorStateW with otp_event := false, otp_value := none, result_markdown := "",
                          status := "processing", msg := "正在初始化任务...", last_update := 10,
                          task := some (TaskHandle.mk false) },
       Except.ok (StatusMsg.mk "processing" "正在初始化任务...")) :=
  start_task_fresh_reset (StartRequest.mk "alice" "pw") 10 errorStateW rfl

/-- C8: input validation precedes any state change — an OTP submission whose
passcode is shorter than 4 or longer than 12 characters, or a start request
with an empty identity or secret, is rejected as a validation error with the
state (gate included) exactly as it was. -/
theorem validation_before_state_change (otp username password : String) (now : Nat)
    (s : TaskState) :
    ((otp.length < 4 ∨ 12 < otp.length) →
      api_submit_otp otp now s = (s, Except.error ApiError.validationError)) ∧
    ((username = "" ∨ password = "") →
      api_start username password now s = (s, Except.error ApiError.validationError)) := by
  constructor
  · intro h
    have hv : ¬ (4 ≤ otp.length ∧ otp.length ≤ 12) := by
      rcases h with h | h <;> omega
    simp [api_submit_otp, OtpRequest.validate, hv]
  · intro h
    have hv : ¬ (1 ≤ username.length ∧ 1 ≤ password.length) := by
      rcases h with h | h <;> subst h <;> simp
    simp [api_start, StartRequest.validate, hv]

theorem validation_before_state_change_witness :
    api_submit_otp "123" 4 waitingStateW = (waitingStateW, Except.error ApiError.validationError) ∧
    api_start "" "pw" 4 initialState = (initialState, Except.error ApiError.validationError) :=
  ⟨(validation_before_state_change "123" "" "pw" 4 waitingStateW).1 (by decide),
   (validation_before_state_change "123" "" "pw" 4 initialState).2 (Or.inl rfl)⟩

/-- C9: OtpGate value invariant — in every reachable state, a fired event
implies a stored (non-`None`) passcode, because `submit_otp` writes
`otp_value` before setting `otp_event` and nothing else ever sets the event;
hence the resumed waiter's read `state.otp_value or ""` yields the submitted
passcode verbatim, never the `None` placeholder. -/
theorem otp_gate_fired_value_present :
    (∀ s : TaskState, Reachable s → s.otp_event = true → ∃ v, s.otp_value = some v) ∧
    (∀ (p : OtpRequest) (now : Nat) (s : TaskState), s.status = "waiting_otp" →
      (submit_otp p now s).1.otp_value = some p.otp ∧
      otpRead (submit_otp p now s).1 = p.otp) := by
  constructor
  · intro s hr
    exact reachable_otp_inv hr
  · intro p now s h
    constructor
    · simp [submit_otp, h, TaskState.update]
    · simp [submit_otp, h, TaskState.update, otpRead]

def w9state : TaskState :=
  (api_submit_otp "123456" 3
    (TaskState.update (api_start "alice" "pw" 1 initialState).1
      "waiting_otp" "等待动态口令输入..." 2)).1

theorem otp_gate_fired_value_present_witness :
    (∃ v, w9state.otp_value = some v) ∧
    otpRead (submit_otp (OtpRequest.mk "123456") 3
      (TaskState.update initialState "waiting_otp" "等待动态口令输入..." 2)).1 = "123456" :=
  ⟨otp_gate_fired_value_present.1 w9state
     (Reachable.step
       (Reachable.step
         (Reachable.step Reachable.init (Step.apiStart "alice" "pw" 1 initialState))
         (Step.flowUpdate "waiting_otp" "等待动态口令输入..." 2 _))
       (Step.apiOtp "123456" 3 _))
     (by decide),
   (otp_gate_fired_value_present.2 (OtpRequest.mk "123456") 3
     (TaskState.update initialState "waiting_otp" "等待动态口令输入..." 2) rfl).2⟩

def payload0 : StartRequest := StartRequest.mk "alice" "pw"

def envFail : JobEnv :=
  { getenv := fun _ => none, gotoLogin := Except.ok (), fillUser := Except.ok (),
    fillPass := Except.ok (), clickSubmit := Except.ok (), otpDialogAppears := true,
    otpSubmit := some ("123456", 3), fillOtp := fun _ => Except.ok (),
    clickOtpSubmit := Except.ok (), gotoOa := Except.ok (), oaReady := true,
    listReady := Except.ok (), rows := [], todayOrdinal := 1000,
    fetchDetail := fun _ => Except.ok "内容", time := 2 }

/-- C6: `run_job` converts every exception a stage raises into
`update("error", "任务失败: " ++ description)` at its outermost level — it is
a total function, so nothing propagates to the caller of `Start` — and when no
stage raises, the job ends in `done`. -/
theorem run_job_catches_stage_exceptions (env : JobEnv) (payload : StartRequest)
    (s : TaskState) :
    (∀ e, jobException env payload s = some e →
      (run_job env payload s).status = "error" ∧
      (run_job env payload s).msg = "任务失败: " ++ e) ∧
    (jobException env payload s = none → (run_job env payload s).status = "done") := by
  cases hl : login_and_enter_oa env payload s with
  | mk s1 r1 =>
    cases r1 with
    | error e =>
      have hj : jobException env payload s = some e := by
        simp only [jobException, hl]
      have hrj : run_job env payload s =
          TaskState.update s1 "error" ("任务失败: " ++ e) env.time := by
        simp only [run_job, hl]
      constructor
      · intro e' he'
        rw [hj] at he'
        obtain rfl : e = e' := by simpa using he'
        rw [hrj]
        exact ⟨rfl, rfl⟩
      · intro hnone
        rw [hj] at hnone
        simp at hnone
    | ok u =>
      cases hs : scrape_notices env s1 with
      | mk s2 r2 =>
        cases r2 with
        | error e =>
          have hj : jobException env payload s = some e := by
            simp only [jobException, hl, hs]
          have hrj : run_job env payload s =
              TaskState.update s2 "error" ("任务失败: " ++ e) env.time := by
            simp only [run_job, hl, hs]
          constructor
          · intro e' he'
            rw [hj] at he'
            obtain rfl : e = e' := by simpa using he'
            rw [hrj]
            exact ⟨rfl, rfl⟩
          · intro hnone
            rw [hj] at hnone
            simp at hnone
        | ok notices =>
          have hj : jobException env payload s = none := by
            simp only [jobException, hl, hs]
          have hrj : (run_job env payload s).status = "done" := by
            simp only [run_job, hl, hs]
            rfl
          constructor
          · intro e' he'
            rw [hj] at he'
            simp at he'
          · intro _
            exact hrj

theorem run_job_catches_stage_exceptions_witness :
    (run_job envFail payload0 initialState).status = "error" ∧
    (run_job envFail payload0 initialState).msg = "任务失败: 缺少环境变量: WEBVPN_LOGIN_URL" :=
  (run_job_catches_stage_exceptions envFail payload0 initialState).1
    "缺少环境变量: WEBVPN_LOGIN_URL" (by decide)

def envTimeout : JobEnv :=
  { getenv := fun _ => some "sel", gotoLogin := Except.ok (), fillUser := Except.ok (),
    fillPass := Except.ok (), clickSubmit := Except.ok (), otpDialogAppears := true,
    otpSubmit := none, fillOtp := fun _ => Except.ok (),
    clickOtpSubmit := Except.ok (), gotoOa := Except.ok (), oaReady := true,
    listReady := Except.ok (), rows := [], todayOrdinal := 1000,
    fetchDetail := fun _ => Except.ok "内容", time := 2 }

/-- C3 counterexample: a run in which no passcode arrives before the deadline
ends with status `error` but with message `"任务失败: "` — the
`update("error", "动态口令超时")` performed inside the login stage is
overwritten when the re-raised `asyncio.TimeoutError` (whose description is
empty) reaches `run_job`'s generic handler — so the final observable JobState
does not carry the timeout message. -/
theorem otp_timeout_message_counterexample :
    (run_job envTimeout payload0 initialState).status = "error" ∧
    (run_job envTimeout payload0 initialState).msg = "任务失败: " ∧
    (run_job envTimeout payload0 initialState).msg ≠ "动态口令超时" := by
  refine ⟨rfl, rfl, ?_⟩
  decide

/-- C3 (amended): on OTP timeout the login stage performs
`update("error", "动态口令超时")` and re-raises the `TimeoutError`; the flow
terminates fatally (no retry), and the final observable JobState has status
`error` — with the message then overwritten by `run_job`'s outer handler to
the generic `"任务失败: "` rather than the timeout message. -/
theorem otp_timeout_final_state (env : JobEnv) (payload : StartRequest) (s : TaskState)
    (hpre : loginPrelude env = Except.ok ()) (hdlg : env.otpDialogAppears = true)
    (hsub : env.otpSubmit = none) :
    (login_and_enter_oa env payload s).1.status = "error" ∧
    (login_and_enter_oa env payload s).1.msg = "动态口令超时" ∧
    (login_and_enter_oa env payload s).2 = Except.error "" ∧
    (run_job env payload s).status = "error" ∧
    (run_job env payload s).msg = "任务失败: " := by
  have hl : login_and_enter_oa env payload s =
      ({ s with status := "error", msg := "动态口令超时", last_update := env.time },
       Except.error "") := by
    unfold login_and_enter_oa
    rw [hpre, hsub, hdlg]
    simp [TaskState.update]
  have hr : run_job env payload s =
      TaskState.update
        { s with status := "error", msg := "动态口令超时", last_update := env.time }
        "error" ("任务失败: " ++ "") env.time := by
    unfold run_job
    rw [hl]
  refine ⟨by rw [hl], by rw [hl], by rw [hl], by rw [hr]; rfl, by rw [hr]; rfl⟩

theorem otp_timeout_final_state_witness :
    (login_and_enter_oa envTimeout payload0 initialState).1.msg = "动态口令超时" ∧
    (run_job envTimeout payload0 initialState).status = "error" :=
  ⟨(otp_timeout_final_state envTimeout payload0 initialState rfl rfl rfl).2.1,
   (otp_timeout_final_state envTimeout payload0 initialState rfl rfl rfl).2.2.2.1⟩

lemma scrape_stmts_exits (env : JobEnv) (s : TaskState) :
    (∃ e, (scrape_notices_stmts env s).2 = some (PyExit.raise e)) ∨
    (∃ items, items ≠ [] ∧ (scrape_notices_stmts env s).2 = some (PyExit.ret items)) := by
  cases hpre : scrapePrelude env with
  | error e =>
    refine Or.inl ⟨e, ?_⟩
    simp [scrape_notices_stmts, hpre]
  | ok u =>
    cases hmeta : collectMetadata (env.todayOrdinal - 30) env.rows with
    | error e =>
      refine Or.inl ⟨e, ?_⟩
      simp [scrape_notices_stmts, hpre, hmeta]
    | ok metadata =>
      cases hfd : fetchDetails env metadata []
          (TaskState.update s "processing" "正在抓取通知列表..." env.time) with
      | mk s2 r =>
        cases r with
        | error e =>
          refine Or.inl ⟨e, ?_⟩
          simp [scrape_notices_stmts, hpre, hmeta, hfd]
        | ok items =>
          by_cases hi : items.isEmpty = true
          · refine Or.inl ⟨"未抓取到任何通知，请检查选择器配置", ?_⟩
            simp [scrape_notices_stmts, hpre, hmeta, hfd, hi]
          · refine Or.inr ⟨items, ?_, ?_⟩
            · intro hnil
              exact hi (by simp [hnil])
            · simp [scrape_notices_stmts, hpre, hmeta, hfd, hi]

/-- C10: the statement block of `scrape_notices` never falls through — every
execution path executes the `return items` (with a non-empty list) or raises —
so the hard-coded `sample_items` block after the `return` is dead code and the
scraper's output is never the fabricated sample notices. -/
theorem scrape_dead_code_unreachable (env : JobEnv) (s : TaskState) :
    (∃ o, (scrape_notices_stmts env s).2 = some o) ∧
    (∀ items, (scrape_notices_stmts env s).2 = some (PyExit.ret items) → items ≠ []) := by
  rcases scrape_stmts_exits env s with ⟨e, he⟩ | ⟨items, hne, hi⟩
  · refine ⟨⟨PyExit.raise e, he⟩, ?_⟩
    intro items hit
    rw [he] at hit
    simp at hit
  · refine ⟨⟨PyExit.ret items, hi⟩, ?_⟩
    intro items' hit
    rw [hi] at hit
    obtain rfl : items = items' := by simpa using hit
    exact hne

def rowW : RowData :=
  { title_el := some " 通知A ", department_el := some "教务处", date_el := some "2025-09-20",
    link_el := some (), href := some "https://oa/1", parsedDate := Except.ok 1000 }

def envScrape : JobEnv :=
  { getenv := fun _ => some "sel", gotoLogin := Except.ok (), fillUser := Except.ok (),
    fillPass := Except.ok (), clickSubmit := Except.ok (), otpDialogAppears := true,
    otpSubmit := some ("123456", 3), fillOtp := fun _ => Except.ok (),
    clickOtpSubmit := Except.ok (), gotoOa := Except.ok (), oaReady := true,
    listReady := Except.ok (), rows := [rowW], todayOrdinal := 1010,
    fetchDetail := fun _ => Except.ok "正文  内容", time := 5 }

def itemsW : List NoticeItem := [NoticeItem.mk "通知A" "教务处" "1000" "正文 内容"]

theorem scrape_dead_code_unreachable_witness :
    (∃ o, (scrape_notices_stmts envScrape initialState).2 = some o) ∧ itemsW ≠ [] :=
  ⟨(scrape_dead_code_unreachable envScrape initialState).1,
   (scrape_dead_code_unreachable envScrape initialState).2 itemsW (by decide)⟩

/-- `big` contains `small` as a contiguous substring (stated on the underlying
character lists). -/
def containsSub (big small : String) : Prop :=
  ∃ pre post : List Char, big.data = pre ++ small.data ++ post

lemma containsSub_self (x : String) : containsSub x x :=
  ⟨[], [], by simp⟩

lemma containsSub_append_left (a b x : String) (h : containsSub b x) :
    containsSub (a ++ b) x := by
  obtain ⟨pre, post, hp⟩ := h
  exact ⟨a.data ++ pre, post, by simp [String.data_append, hp]⟩

lemma containsSub_append_right (a b x : String) (h : containsSub a x) :
    containsSub (a ++ b) x := by
  obtain ⟨pre, post, hp⟩ := h
  exact ⟨pre, post ++ b.data, by simp [String.data_append, hp]⟩

lemma containsSub_trans {a b c : String} (h1 : containsSub a b) (h2 : containsSub b c) :
    containsSub a c := by
  obtain ⟨p1, q1, e1⟩ := h1
  obtain ⟨p2, q2, e2⟩ := h2
  exact ⟨p1 ++ p2, q2 ++ q1, by simp [e1, e2]⟩

lemma containsSub_pyJoin (sep : String) (l : List String) (x : String) (hx : x ∈ l) :
    containsSub (pyJoin sep l) x := by
  induction l with
  | nil => cases hx
  | cons a rest ih =>
    cases rest with
    | nil =>
      obtain rfl : x = a := by simpa using hx
      exact containsSub_self x
    | cons b r =>
      rcases List.mem_cons.mp hx with rfl | hx2
      · exact containsSub_append_right _ _ _ (containsSub_append_right _ _ _ (containsSub_self x))
      · exact containsSub_append_left _ _ _ (ih hx2)

lemma formatNoticeLine_contains_title (item : NoticeItem) :
    containsSub (formatNoticeLine item) item.title :=
  ⟨("- **" : String).data,
   ("**（" ++ item.department ++ " / " ++ item.date ++ "）：" ++ item.content : String).data,
   by simp [formatNoticeLine, String.data_append]⟩

lemma pyJoin_cons_data (sep a : String) (l : List String) :
    ∃ t, (pyJoin sep (a :: l)).data = a.data ++ t := by
  cases l with
  | nil => exact ⟨[], by simp [pyJoin]⟩
  | cons b r =>
    exact ⟨sep.data ++ (pyJoin sep (b :: r)).data,
      by simp [pyJoin, String.data_append]⟩

lemma simulate_ai_summary_ne_empty (items : List NoticeItem) :
    simulate_ai_summary items ≠ "" := by
  intro h
  obtain ⟨t, ht⟩ := pyJoin_cons_data "\n" "# 本月 OA 重点摘要"
    ("" :: "## 重要教务" :: (items.map formatNoticeLine ++ ["\n## 其他\n- 暂无"]))
  have hd : (pyJoin "\n" ("# 本月 OA 重点摘要" :: "" :: "## 重要教务" ::
      (items.map formatNoticeLine ++ ["\n## 其他\n- 暂无"]))).data = [] := by
    rw [show pyJoin "\n" ("# 本月 OA 重点摘要" :: "" :: "## 重要教务" ::
        (items.map formatNoticeLine ++ ["\n## 其他\n- 暂无"])) = simulate_ai_summary items
      from rfl, h]
  rw [ht] at hd
  have : ("# 本月 OA 重点摘要" : String).data = [] := (List.append_eq_nil.mp hd).1
  exact absurd this (by decide)

lemma simulate_contains_line (items : List NoticeItem) (item : NoticeItem)
    (h : item ∈ items) :
    containsSub (simulate_ai_summary items) (formatNoticeLine item) := by
  apply containsSub_pyJoin
  refine List.mem_append.mpr (Or.inl ?_)
  refine List.mem_append.mpr (Or.inr ?_)
  exact List.mem_map_of_mem formatNoticeLine h

/-- C7: `simulate_ai_summary` is a pure function of the record sequence, and
for every non-empty sequence of records its result text is non-empty and
contains every record's title as a substring. -/
theorem summary_contains_titles (items : List NoticeItem) (hne : items ≠ []) :
    simulate_ai_summary items ≠ "" ∧
    ∀ item ∈ items, containsSub (simulate_ai_summary items) item.title := by
  refine ⟨simulate_ai_summary_ne_empty items, ?_⟩
  intro item hitem
  exact containsSub_trans (simulate_contains_line items item hitem)
    (formatNoticeLine_contains_title item)

def itemW : NoticeItem := NoticeItem.mk "关于期末考试安排的通知" "教务处" "2025-01-01" "内容"

theorem summary_contains_titles_witness :
    simulate_ai_summary [itemW] ≠ "" ∧
    containsSub (simulate_ai_summary [itemW]) itemW.title :=
  ⟨(summary_contains_titles [itemW] (List.cons_ne_nil _ _)).1,
   (summary_contains_titles [itemW] (List.cons_ne_nil _ _)).2 itemW (List.mem_singleton.mpr rfl)⟩
